import Mathlib

/-!
# Verification of the ASIN daily-report dashboard pipeline

Shallow embedding of `app1_网络版_dropbox版.py`: a dashboard that filters a
loaded spreadsheet by product identifier (ASIN) and date range, derives
advertising metrics, formats them for display, exports a CSV and charts
30-observation rolling means of two conversion series.

Modelling conventions:
* pandas numeric cells that may be `NaN` are `Option ℚ` (`none` = NaN /
  missing); all arithmetic is exact rational arithmetic.  The float special
  values NaN and infinity have no `ℚ` counterpart; both are represented by
  the `none` (undefined) state, which is exactly how the formatting layer
  treats them (placeholder output).
* pandas timestamps (`pd.to_datetime`) are `ℚ`: whole days since the epoch,
  the fractional part being the time of day.  The user's date picker yields
  whole days, hence `ℤ` endpoints.
* The source's Chinese column names are transliterated: 日期 = `date`,
  店铺 = `store`, 销量 = `unitsSold`, 订单量 = `orders`, 销售额 =
  `salesAmount`, 展示 = `impressions`, 点击 = `clicks`, 广告订单量 =
  `adOrders`, 广告销售额 = `adSales`, 平均客单价(折后) = `avgPrice`,
  花费-SP/SD/SB/SBV广告 = `spendSP`/`spendSD`/`spendSB`/`spendSBV`,
  广告花费 = `adSpend`, 访客转化率_num = `visitorConvRateNum`,
  CR_num = `crNum`.
-/

/-- The four recognized per-channel ad-spend columns
(`ad_cost_columns = ["花费-SP广告", "花费-SD广告", "花费-SB广告", "花费-SBV广告"]`,
source line 61). -/
inductive AdChannel
  | SP
  | SD
  | SB
  | SBV
deriving DecidableEq, Repr

/-- One loaded row of the sheet, after `load_data` has parsed the date column
and dropped rows whose date failed to parse (source lines 29-31): `date` is a
successfully parsed timestamp.  Cells of numeric columns are `Option ℚ`
(`none` = NaN); `cpaRaw`/`acosRaw` keep the raw cell content of the CPA/ACOS
columns as text (`none` = NaN cell); `cvrCell`/`ctrCell` are display-only
passthrough columns kept as their rendered text. -/
structure RawRecord where
  asin : Option String
  date : ℚ
  store : String
  sessionsTotal : Option ℚ
  unitsSold : Option ℚ
  orders : Option ℚ
  salesAmount : Option ℚ
  impressions : Option ℚ
  clicks : Option ℚ
  adOrders : Option ℚ
  adSales : Option ℚ
  cvrCell : String
  ctrCell : String
  cpaRaw : Option String
  acosRaw : Option String
  cpc : Option ℚ
  avgPrice : Option ℚ
  spendSP : Option ℚ
  spendSD : Option ℚ
  spendSB : Option ℚ
  spendSBV : Option ℚ
deriving DecidableEq, Repr

/-- Which optional columns exist in the loaded sheet (the source probes
`col in filtered_df.columns`, lines 62, 118, 125, 135-137).  The columns the
script reads unconditionally (date, ASIN, Sessions-Total, 销量, 点击,
广告订单量, 销售额, ACOS) must be present or the script would raise, so they
carry no flag. -/
structure ColumnsPresent where
  spendSP : Bool
  spendSD : Bool
  spendSB : Bool
  spendSBV : Bool
  cpc : Bool
  avgPrice : Bool
  store : Bool
  orders : Bool
  cvr : Bool
  impressions : Bool
  ctr : Bool
  adSales : Bool
deriving DecidableEq, Repr

/-- The loaded dataset: the rows surviving date parsing, plus the set of
optional columns the sheet happens to contain. -/
structure Dataset where
  rows : List RawRecord
  cols : ColumnsPresent
deriving DecidableEq, Repr

/-- Spend cell of a row in one of the four recognized channels. -/
def spendCell (r : RawRecord) : AdChannel → Option ℚ
  | AdChannel.SP => r.spendSP
  | AdChannel.SD => r.spendSD
  | AdChannel.SB => r.spendSB
  | AdChannel.SBV => r.spendSBV

/-- Presence flag of one of the four recognized spend columns. -/
def spendPresent (c : ColumnsPresent) : AdChannel → Bool
  | AdChannel.SP => c.spendSP
  | AdChannel.SD => c.spendSD
  | AdChannel.SB => c.spendSB
  | AdChannel.SBV => c.spendSBV

/-- `ad_cost_columns` (source line 61). -/
def adCostColumns : List AdChannel := [AdChannel.SP, AdChannel.SD, AdChannel.SB, AdChannel.SBV]

/-- `existing_cost_columns = [col for col in ad_cost_columns if col in filtered_df.columns]`
(source line 62). -/
def existingCostColumns (c : ColumnsPresent) : List AdChannel :=
  adCostColumns.filter (spendPresent c)

/-- The filter stage (source lines 51-55):
`df[(df["ASIN"] == selected_asin) & (df["日期"] >= start_date) & (df["日期"] <= end_date)]`.
`start_date`/`end_date` are `pd.to_datetime` of the picked calendar dates,
i.e. midnight timestamps, here the integer day numbers cast to `ℚ`; row
timestamps are compared as timestamps.  A NaN ASIN cell compares unequal to
every selected value. -/
def filterRecords (df : List RawRecord) (selectedAsin : String) (startDate endDate : ℤ) :
    List RawRecord :=
  df.filter fun r =>
    decide (r.asin = some selectedAsin ∧ (startDate : ℚ) ≤ r.date ∧ r.date ≤ (endDate : ℚ))

/-- `filtered_df["广告花费"]` (source lines 63-66): row-wise sum over the
per-channel spend columns present in the sheet (pandas `sum(axis=1)` skips
NaN cells, i.e. counts them as 0), and the constant 0 when none of the four
columns exists. -/
def adSpend (c : ColumnsPresent) (r : RawRecord) : ℚ :=
  if existingCostColumns c = [] then 0
  else ((existingCostColumns c).map (fun ch => (spendCell r ch).getD 0)).sum

/-- Digit-string value, most significant first. -/
def digitsToNat (cs : List Char) : ℕ :=
  cs.foldl (fun acc c => acc * 10 + (c.toNat - 48)) 0

/-- Sign prefix of a numeric string. -/
def splitSign : List Char → ℚ × List Char
  | '-' :: rest => (-1, rest)
  | '+' :: rest => (1, rest)
  | cs => (1, cs)

/-- Decimal-string parser standing for `pd.to_numeric(..., errors="coerce")`
on a text cell: optional sign, digits, optional fraction; anything else
(including the strings `"nan"` and `"<NA>"` that `astype(str)` makes of
missing cells) coerces to NaN, i.e. `none`.  Exponent notation and the float
special spellings are not modelled; no claim depends on them. -/
def parseNum (s : String) : Option ℚ :=
  let sb := splitSign s.data
  let ip := sb.2.takeWhile Char.isDigit
  let rest := sb.2.dropWhile Char.isDigit
  match rest with
  | [] => if ip = [] then none else some (sb.1 * (digitsToNat ip : ℚ))
  | '.' :: fs =>
    if fs.all Char.isDigit ∧ (ip ≠ [] ∨ fs ≠ []) then
      some (sb.1 * ((digitsToNat ip : ℚ) + (digitsToNat fs : ℚ) / ((10 : ℚ) ^ fs.length)))
    else none
  | _ => none

/-- `.str.replace("%", "", regex=False)` (source line 74): drop every percent
sign. -/
def stripPct (s : String) : String :=
  String.mk (s.data.filter (fun c => c ≠ '%'))

/-- ACOS derivation (source lines 70-76): the `"--"` placeholder becomes NA;
otherwise strip `%`, parse as a number and divide by 100; parse failures
coerce to NA. -/
def deriveACOS (raw : Option String) : Option ℚ :=
  match raw with
  | none => none
  | some s => if s = "--" then none else (parseNum (stripPct s)).map (fun v => v / 100)

/-- CPA derivation (source line 69): `pd.to_numeric(filtered_df.get("CPA"), errors="coerce")`. -/
def deriveCPA (raw : Option String) : Option ℚ :=
  raw.bind parseNum

/-- `访客转化率_num = np.where(Sessions-Total > 0, 销量 / Sessions-Total, nan)`
(source lines 79-83).  A NaN sessions cell fails the `> 0` test, a NaN 销量
cell makes the selected quotient NaN. -/
def visitorConvRateNum (r : RawRecord) : Option ℚ :=
  match r.sessionsTotal with
  | some s => if 0 < s then r.unitsSold.map (fun u => u / s) else none
  | none => none

/-- `CR_num = np.where(点击 > 0, 广告订单量 / 点击, nan)` (source lines 84-88). -/
def crNum (r : RawRecord) : Option ℚ :=
  match r.clicks with
  | some c => if 0 < c then r.adOrders.map (fun a => a / c) else none
  | none => none

/-- A filtered row together with its derived numeric columns
(source lines 60-88). -/
structure DerivedRow where
  raw : RawRecord
  spend : ℚ
  cpa : Option ℚ
  acos : Option ℚ
  vcr : Option ℚ
  crv : Option ℚ
deriving DecidableEq, Repr

/-- The metric-derivation stage for one filtered row. -/
def deriveRow (c : ColumnsPresent) (r : RawRecord) : DerivedRow :=
  { raw := r
    spend := adSpend c r
    cpa := deriveCPA r.cpaRaw
    acos := deriveACOS r.acosRaw
    vcr := visitorConvRateNum r
    crv := crNum r }

/-- Round half to even, the rounding of Python's fixed-precision `format`. -/
def rhe (q : ℚ) : ℤ :=
  let f : ℤ := q.num.fdiv (q.den : ℤ)
  let r : ℚ := q - (f : ℚ)
  if r < 1 / 2 then f
  else if 1 / 2 < r then f + 1
  else if f % 2 = 0 then f else f + 1

/-- ASCII digit character for `n % 10`. -/
def digitChar10 (n : ℕ) : Char := Char.ofNat (48 + n % 10)

/-- Python's `f"{x:.2%}"`: the value times 100, rendered with exactly two
decimal digits and a trailing percent sign. -/
def fmtPercent2 (q : ℚ) : String :=
  (if rhe (q * 10000) < 0 then "-" else "") ++ toString ((rhe (q * 10000)).natAbs / 100) ++ "." ++
    String.mk [digitChar10 ((rhe (q * 10000)).natAbs % 100 / 10),
      digitChar10 ((rhe (q * 10000)).natAbs % 10)] ++ "%"

/-- The formatting lambda of source lines 105-110:
`f"{x:.2%}" if pd.notnull(x) else "--"`. -/
def fmtPctCell (x : Option ℚ) : String :=
  match x with
  | some v => fmtPercent2 v
  | none => "--"

/-- The ACOS formatting lambda of source lines 111-113:
`f"{x:.2%}" if pd.notnull(x) and not np.isnan(x) and x != float('inf') else "--"`.
In the rational model NaN and infinity are unrepresentable; they live in the
`none` state, so the two extra guards are absorbed by the `none` branch. -/
def fmtACOSCell (x : Option ℚ) : String :=
  match x with
  | some v => fmtPercent2 v
  | none => "--"

/-- Comma-grouping of a reversed digit list: a separator after every third
digit (counting from the least significant end) while digits remain. -/
def commaRevAux : List Char → ℕ → List Char
  | [], _ => []
  | c :: rest, k =>
    c :: (if (k + 1) % 3 = 0 ∧ rest ≠ [] then ',' :: commaRevAux rest (k + 1)
          else commaRevAux rest (k + 1))

/-- Thousands-separated rendering of a natural number. -/
def commaString (a : ℕ) : String :=
  String.mk ((commaRevAux (toString a).data.reverse 0).reverse)

/-- Python's `f"{x:,.0f}"`: round to an integer, thousands separators. -/
def fmtThousands0 (q : ℚ) : String :=
  let n := rhe q
  (if n < 0 then "-" else "") ++ commaString n.natAbs

/-- The lambda of source lines 114-116 and 122-128:
`f"{x:,.0f}" if pd.notnull(x) else "--"`. -/
def fmtThousandsCell (x : Option ℚ) : String :=
  match x with
  | some v => fmtThousands0 v
  | none => "--"

/-- Python's `f"{x:.1f}"`: one decimal digit. -/
def fmtOneDecimal (q : ℚ) : String :=
  let n : ℤ := rhe (q * 10)
  let a : ℕ := n.natAbs
  (if n < 0 then "-" else "") ++ toString (a / 10) ++ "." ++ String.mk [digitChar10 (a % 10)]

/-- The CPC lambda of source lines 118-121: `f"{x:.1f}" if pd.notnull(x) else "--"`. -/
def fmtCPCCell (x : Option ℚ) : String :=
  match x with
  | some v => fmtOneDecimal v
  | none => "--"

/-- Gregorian date of a day count since 1970-01-01 (civil-from-days). -/
def civilFromDays (z0 : ℕ) : ℕ × ℕ × ℕ :=
  let z := z0 + 719468
  let era := z / 146097
  let doe := z % 146097
  let yoe := (doe - doe / 1460 + doe / 36524 - doe / 146096) / 365
  let y := yoe + era * 400
  let doy := doe - (365 * yoe + yoe / 4 - yoe / 100)
  let mp := (5 * doy + 2) / 153
  let d := doy - (153 * mp + 2) / 5 + 1
  let m := if mp < 10 then mp + 3 else mp - 9
  (if m ≤ 2 then y + 1 else y, m, d)

/-- Left-pad a numeral with zeros to a given width. -/
def padZeroes (w : ℕ) (s : String) : String :=
  String.mk (List.replicate (w - s.length) '0') ++ s

/-- `dt.strftime('%Y-%m-%d')` (source lines 140 and 205) on a timestamp:
calendar date of the whole-day part. -/
def dateFmt (t : ℚ) : String :=
  let c := civilFromDays (t.num.fdiv (t.den : ℤ)).toNat
  padZeroes 4 (toString c.1) ++ "-" ++ padZeroes 2 (toString c.2.1) ++ "-" ++
    padZeroes 2 (toString c.2.2)

/-- Rendering of an untouched numeric cell in the display table.  pandas has
its own decimal rendering for raw floats; no claim inspects these cells, so
an exact rational rendering stands in for it. -/
def ratCell (q : ℚ) : String :=
  if q.den = 1 then toString q.num else toString q.num ++ "/" ++ toString q.den

/-- A raw numeric cell: NaN renders as the empty cell. -/
def rawNumCell (x : Option ℚ) : String :=
  match x with
  | some q => ratCell q
  | none => ""

/-- The display projection of one derived row in the order of
`columns_to_show` (source lines 131-138), a column absent from the sheet
being synthesized as `"--"` (lines 135-137), with the formatted metric
columns of lines 105-128 in place. -/
def displayCells (c : ColumnsPresent) (d : DerivedRow) : List String :=
  [ dateFmt d.raw.date,
    if c.store then d.raw.store else "--",
    rawNumCell d.raw.sessionsTotal,
    rawNumCell d.raw.unitsSold,
    if c.orders then rawNumCell d.raw.orders else "--",
    fmtPctCell d.vcr,
    if c.cvr then d.raw.cvrCell else "--",
    rawNumCell d.raw.salesAmount,
    if c.avgPrice then fmtThousandsCell d.raw.avgPrice else "--",
    if c.impressions then rawNumCell d.raw.impressions else "--",
    rawNumCell d.raw.clicks,
    if c.ctr then d.raw.ctrCell else "--",
    if c.cpc then fmtCPCCell d.raw.cpc else "--",
    rawNumCell d.raw.adOrders,
    if c.adSales then rawNumCell d.raw.adSales else "--",
    fmtPctCell d.crv,
    fmtThousands0 d.spend,
    fmtThousandsCell d.cpa,
    fmtACOSCell d.acos ]

/-- `header_level_1`: the renamed display column labels (source lines 141-144). -/
def headerLevel1 : List String :=
  ["日期", "店铺", "访客数", "销量", "订单数", "访客转化率", "转化率", "销售额", "客单价(折后)",
   "Impressions", "Click", "CTR", "CPC-SP", "广告订单", "广告销售额", "CR", "广告花费", "CPA", "ACOS"]

/-- `header_level_0`: the two grouping labels, 9 overall + 10 advertising
columns (source line 145). -/
def headerLevel0 : List String :=
  List.replicate 9 "整体数据" ++ List.replicate 10 "广告数据"

/-- The on-screen table: two-level header plus the formatted rows
(source lines 141-148). -/
structure DisplayTable where
  topHeader : List String
  subHeader : List String
  rows : List (List String)
deriving DecidableEq, Repr

/-- Parser state of the CSV field scanner: outside quotes, inside quotes, or
just after a quote character inside a quoted field. -/
inductive CsvSt
  | unq
  | inq
  | qq
deriving DecidableEq, Repr

/-- Prepend a character to the first field of a field list. -/
def consHead (c : Char) : List (List Char) → List (List Char)
  | [] => [[c]]
  | f :: fs => (c :: f) :: fs

/-- Split one CSV line into fields, honouring RFC-4180 quoting (a quoted
field may contain commas; a doubled quote inside a quoted field is a literal
quote).  This models what any standard CSV reader does with one line of the
exported file. -/
def parseLineGo : CsvSt → List Char → List (List Char)
  | _, [] => [[]]
  | CsvSt.unq, c :: rest =>
    if c = ',' then [] :: parseLineGo CsvSt.unq rest
    else if c = '"' then parseLineGo CsvSt.inq rest
    else consHead c (parseLineGo CsvSt.unq rest)
  | CsvSt.inq, c :: rest =>
    if c = '"' then parseLineGo CsvSt.qq rest
    else consHead c (parseLineGo CsvSt.inq rest)
  | CsvSt.qq, c :: rest =>
    if c = '"' then consHead '"' (parseLineGo CsvSt.inq rest)
    else if c = ',' then [] :: parseLineGo CsvSt.unq rest
    else consHead c (parseLineGo CsvSt.unq rest)

/-- Double every quote character (the RFC-4180 escape used by `to_csv`). -/
def escQ : List Char → List Char
  | [] => []
  | c :: rest => if c = '"' then '"' :: '"' :: escQ rest else c :: escQ rest

/-- `csv.QUOTE_MINIMAL`, the `to_csv` default: quote a field iff it contains
the delimiter, the quote character or a line-terminator character. -/
def needsQuote (cs : List Char) : Bool :=
  cs.any (fun c => c = ',' || c = '"' || c = '\n' || c = '\r')

/-- One rendered CSV field. -/
def renderField (cs : List Char) : List Char :=
  if needsQuote cs then '"' :: (escQ cs ++ ['"']) else cs

/-- One rendered CSV line: fields joined by commas. -/
def renderLineFields : List (List Char) → List Char
  | [] => []
  | [f] => renderField f
  | f :: fs => renderField f ++ ',' :: renderLineFields fs

/-- Lines of a file, each terminated by a newline (the `to_csv` line format). -/
def joinNl : List (List Char) → List Char
  | [] => []
  | l :: ls => l ++ '\n' :: joinNl ls

/-- Split a character stream at newlines. -/
def splitNl : List Char → List (List Char)
  | [] => [[]]
  | c :: rest => if c = '\n' then [] :: splitNl rest else consHead c (splitNl rest)

/-- `csv_data = display_df.droplevel(0, axis=1).to_csv(index=False, ...)`
(source line 173): the grouping header level is dropped, so the artifact is
one header line made of `header_level_1` followed by one line per display
row; no index column is written. -/
def toCsvFile (t : DisplayTable) : List Char :=
  joinNl (renderLineFields (t.subHeader.map String.data) ::
    t.rows.map (fun r => renderLineFields (r.map String.data)))

/-- Parse a CSV artifact back: split into lines (the terminator after the
last line yields one empty trailing chunk, which every CSV reader discards)
and split each line into fields. -/
def parseCsvFile (file : List Char) : List (List (List Char)) :=
  ((splitNl file).dropLast).map (parseLineGo CsvSt.unq)

/-- One usable chart observation (source lines 187-199): a filtered row whose
sessions, clicks and both conversion rates are all defined after numeric
coercion; rows failing this are dropped by `dropna`, never zero-filled. -/
structure ChartRow where
  date : ℚ
  sessions : ℚ
  clicks : ℚ
  v : ℚ
  cr : ℚ
deriving DecidableEq, Repr

/-- `dropna(subset=["Sessions-Total", "点击", "访客转化率_num", "CR_num"])`
applied to one row: keep it iff all four are defined. -/
def mkChartRow (r : RawRecord) : Option ChartRow :=
  match r.sessionsTotal, r.clicks, visitorConvRateNum r, crNum r with
  | some s, some c, some v, some cr => some ⟨r.date, s, c, v, cr⟩
  | _, _, _, _ => none

/-- Chart ordering: ascending by date (`sort_values(by="日期")`, line 200). -/
def dateLE (x y : ChartRow) : Prop := x.date ≤ y.date

instance : DecidableRel dateLE := fun x y => inferInstanceAs (Decidable (x.date ≤ y.date))

instance : IsTotal ChartRow dateLE := ⟨fun a b => le_total a.date b.date⟩

instance : IsTrans ChartRow dateLE := ⟨fun _ _ _ h h2 => le_trans h h2⟩

/-- The chart data rows: re-filter the raw dataset (source lines 182-186 work
from `df`, not from the mutated `filtered_df`), drop incomplete rows, sort by
date ascending. -/
def chartRows (df : List RawRecord) (a : String) (s e : ℤ) : List ChartRow :=
  List.insertionSort dateLE ((filterRecords df a s e).filterMap mkChartRow)

/-- `.rolling(window=w).mean()` with the default `min_periods = w`: position
`i` is undefined while fewer than `w` observations exist, and otherwise the
arithmetic mean of the `w` observations ending at `i`. -/
def rollingMean (w : ℕ) (xs : List ℚ) : List (Option ℚ) :=
  (List.range xs.length).map fun i =>
    if i + 1 < w then none
    else some ((((xs.take (i + 1)).drop (i + 1 - w)).sum) / (w : ℚ))

/-- The chart stage output (source lines 202-221): `none` when no usable row
survives (the "暂无足够数据" branch), otherwise the rows with the two
30-observation rolling-mean series. -/
structure ChartData where
  rows : List ChartRow
  vMA : List (Option ℚ)
  crMA : List (Option ℚ)
deriving DecidableEq, Repr

/-- Chart computation on the raw dataset. -/
def chartOf (df : List RawRecord) (a : String) (s e : ℤ) : Option ChartData :=
  let rows := chartRows df a s e
  if rows.isEmpty then none
  else some { rows := rows
              vMA := rollingMean 30 (rows.map ChartRow.v)
              crMA := rollingMean 30 (rows.map ChartRow.cr) }

/-- The four top metric cards (source lines 91-102): pandas sums skip NaN
cells and `.mean()` averages the defined values only, NaN when none. -/
structure MetricCards where
  totalSales : ℚ
  adCostSum : ℚ
  visitorTotal : ℚ
  acosAvg : Option ℚ
deriving DecidableEq, Repr

/-- Metric cards over the derived filtered rows. -/
def metricCards (rows : List DerivedRow) : MetricCards :=
  { totalSales := (rows.filterMap (fun d => d.raw.salesAmount)).sum
    adCostSum := (rows.map DerivedRow.spend).sum
    visitorTotal := (rows.filterMap (fun d => d.raw.sessionsTotal)).sum
    acosAvg :=
      let ds := rows.filterMap DerivedRow.acos
      if ds.isEmpty then none else some (ds.sum / (ds.length : ℚ)) }

/-- The result of one interaction: either the designed "no data" early exit
(`st.warning` + `st.stop`, source lines 56-58) or the rendered report. -/
inductive PipelineOutput
  | noData
  | report (cards : MetricCards) (table : DisplayTable) (csv : List Char) (chart : Option ChartData)
deriving DecidableEq, Repr

/-- Filter stage as the script runs it: `filtered_df = df[...].copy()` builds
a fresh frame, the ambient raw dataset is returned untouched. -/
def filterStage (ds : Dataset) (a : String) (s e : ℤ) : List RawRecord × Dataset :=
  (filterRecords ds.rows a s e, ds)

/-- Metric-derivation stage; mutates only the private copy. -/
def deriveStage (ds : Dataset) (filtered : List RawRecord) : List DerivedRow × Dataset :=
  (filtered.map (deriveRow ds.cols), ds)

/-- Formatting/projection stage producing the on-screen table. -/
def formatStage (ds : Dataset) (derived : List DerivedRow) : DisplayTable × Dataset :=
  ({ topHeader := headerLevel0
     subHeader := headerLevel1
     rows := derived.map (displayCells ds.cols) }, ds)

/-- Export stage producing the CSV artifact. -/
def exportStage (ds : Dataset) (t : DisplayTable) : List Char × Dataset :=
  (toCsvFile t, ds)

/-- Chart stage; works on a fresh copy re-filtered from the raw dataset
(source lines 182-186). -/
def chartStage (ds : Dataset) (a : String) (s e : ℤ) : Option ChartData × Dataset :=
  (chartOf ds.rows a s e, ds)

/-- One full interaction of the script after loading: filter, then either the
early "no data" exit or derivation, formatting, export and chart.  The second
component is the raw dataset as the script leaves it. -/
def runScript (ds : Dataset) (a : String) (s e : ℤ) : PipelineOutput × Dataset :=
  let fs := filterStage ds a s e
  if fs.1.isEmpty then (PipelineOutput.noData, fs.2)
  else
    let dv := deriveStage fs.2 fs.1
    let tb := formatStage dv.2 dv.1
    let ex := exportStage tb.2 tb.1
    let ch := chartStage ex.2 a s e
    (PipelineOutput.report (metricCards dv.1) tb.1 ex.1 ch.1, ch.2)

/-- The user-visible output of one interaction. -/
def runPipeline (ds : Dataset) (a : String) (s e : ℤ) : PipelineOutput :=
  (runScript ds a s e).1

/-- Whole-day part of a timestamp (its floor). -/
def dayOf (t : ℚ) : ℤ := t.num / (t.den : ℤ)

/-- The filter-stage contract as the specification words it: identifier
matches exactly and the record's calendar day — not its timestamp — lies in
the closed interval `[start, end]` ("date-only comparison — no time-of-day
component").  Stated from the spec's words for comparison with
`filterRecords`, which is the code's behaviour. -/
def claimedFilterPred (r : RawRecord) (a : String) (s e : ℤ) : Prop :=
  r.asin = some a ∧ s ≤ dayOf r.date ∧ dayOf r.date ≤ e

instance (r : RawRecord) (a : String) (s e : ℤ) : Decidable (claimedFilterPred r a s e) := by
  unfold claimedFilterPred
  infer_instance

/-- Prepend a prefix onto the first chunk of a chunk list. -/
def prependFirst (f : List Char) : List (List Char) → List (List Char)
  | [] => [f]
  | g :: gs => (f ++ g) :: gs

/-- A row whose every cell is absent, for building concrete test records. -/
def baseRecord : RawRecord :=
  { asin := none, date := 0, store := "", sessionsTotal := none, unitsSold := none,
    orders := none, salesAmount := none, impressions := none, clicks := none,
    adOrders := none, adSales := none, cvrCell := "", ctrCell := "", cpaRaw := none,
    acosRaw := none, cpc := none, avgPrice := none, spendSP := none, spendSD := none,
    spendSB := none, spendSBV := none }

/-- A sheet carrying every optional column. -/
def allCols : ColumnsPresent :=
  { spendSP := true, spendSD := true, spendSB := true, spendSBV := true, cpc := true,
    avgPrice := true, store := true, orders := true, cvr := true, impressions := true,
    ctr := true, adSales := true }

/-- A sheet carrying none of the optional columns. -/
def noCols : ColumnsPresent :=
  { spendSP := false, spendSD := false, spendSB := false, spendSBV := false, cpc := false,
    avgPrice := false, store := false, orders := false, cvr := false, impressions := false,
    ctr := false, adSales := false }

/-- The spec's scenario row: sessions = 100, units sold = 5, clicks = 50,
ad orders = 2. -/
def scenarioRecord : RawRecord :=
  { baseRecord with
    sessionsTotal := some 100, unitsSold := some 5, clicks := some 50, adOrders := some 2 }

/-- The spec's ACOS scenario row: a raw ACOS cell holding the placeholder. -/
def acosDashRecord : RawRecord :=
  { baseRecord with acosRaw := some "--" }

/-- A record dated noon of day 1: its calendar day is 1 but its timestamp
exceeds the midnight end bound of day 1. -/
def halfDayRecord : RawRecord :=
  { baseRecord with asin := some "A", date := 3 / 2 }

/-- One fully populated chart-usable row on day `i`. -/
def chartSampleRow (i : ℕ) : RawRecord :=
  { baseRecord with
    asin := some "A", date := (i : ℚ), sessionsTotal := some 100, unitsSold := some 5,
    clicks := some 50, adOrders := some 2 }

/-- Thirty consecutive usable days for the rolling-mean witness. -/
def chartSampleDf : List RawRecord :=
  (List.range 30).map chartSampleRow

/-- A tiny concrete display table whose second column exercises the CSV
quoting of thousands-separated values. -/
def tinyTable : DisplayTable :=
  { topHeader := ["整体数据", "广告数据"]
    subHeader := ["日期", "销售额"]
    rows := [["2024-01-01", "1,234"]] }

/-- A dataset with a single record on day 5 for ASIN "B": filtering it for
ASIN "A" on the single day 3 matches nothing. -/
def noMatchDataset : Dataset :=
  { rows := [{ baseRecord with asin := some "B", date := 5 }], cols := allCols }

/-- A dataset with one record for ASIN "A" on day 1 and one record whose
ASIN cell is missing. -/
def smallDataset : Dataset :=
  { rows := [{ baseRecord with asin := some "A", date := 1 }, { baseRecord with date := 1 }],
    cols := allCols }

/-- `asin_list = df["ASIN"].dropna().unique().tolist()` (source line 41): the
distinct non-null identifier values of the loaded data. -/
def asinList (df : List RawRecord) : List String :=
  (df.filterMap RawRecord.asin).dedup

/-- A record dated exactly midnight of day 1. -/
def wholeDayRecord : RawRecord :=
  { baseRecord with asin := some "A", date := 1 }

theorem consHead_ne_nil (c : Char) (l : List (List Char)) : consHead c l ≠ [] := by
  cases l <;> simp [consHead]

theorem parseLineGo_ne_nil (st : CsvSt) (s : List Char) : parseLineGo st s ≠ [] := by
  induction s generalizing st with
  | nil => cases st <;> simp [parseLineGo]
  | cons c rest ih =>
    cases st <;> simp only [parseLineGo] <;> split_ifs <;>
      first
        | exact consHead_ne_nil _ _
        | exact ih _
        | simp

theorem consHead_prependFirst (c : Char) (f : List Char) (r : List (List Char)) :
    consHead c (prependFirst f r) = prependFirst (c :: f) r := by
  cases r <;> rfl

theorem prependFirst_nil_of_ne (r : List (List Char)) (h : r ≠ []) : prependFirst [] r = r := by
  cases r with
  | nil => exact absurd rfl h
  | cons g gs => rfl

theorem parseLineGo_unq_append (f rest : List Char)
    (hf : ∀ c ∈ f, c ≠ ',' ∧ c ≠ '"') :
    parseLineGo CsvSt.unq (f ++ rest) = prependFirst f (parseLineGo CsvSt.unq rest) := by
  induction f with
  | nil =>
    simp only [List.nil_append]
    exact (prependFirst_nil_of_ne _ (parseLineGo_ne_nil _ _)).symm
  | cons c f ih =>
    have hc := hf c (List.mem_cons_self c f)
    simp only [List.cons_append, parseLineGo, if_neg hc.1, if_neg hc.2, List.append_eq]
    rw [ih (fun d hd => hf d (List.mem_cons_of_mem c hd)), consHead_prependFirst]

theorem parseLineGo_inq_append (f rest : List Char) :
    parseLineGo CsvSt.inq (escQ f ++ '"' :: rest) = prependFirst f (parseLineGo CsvSt.qq rest) := by
  induction f with
  | nil =>
    simp only [escQ, List.nil_append, parseLineGo, if_pos]
    exact (prependFirst_nil_of_ne _ (parseLineGo_ne_nil _ _)).symm
  | cons c f ih =>
    by_cases hc : c = '"'
    · subst hc
      simp only [escQ, if_pos, List.cons_append, parseLineGo, List.append_eq]
      rw [ih, consHead_prependFirst]
    · simp only [escQ, if_neg hc, List.cons_append, parseLineGo, if_neg hc, List.append_eq]
      rw [ih, consHead_prependFirst]

theorem parseLineGo_renderField (f rest : List Char)
    (hrest : rest = [] ∨ ∃ t, rest = ',' :: t) :
    parseLineGo CsvSt.unq (renderField f ++ rest) = prependFirst f (parseLineGo CsvSt.unq rest) := by
  unfold renderField
  split_ifs with hq
  · have step1 : ('"' :: (escQ f ++ ['"'])) ++ rest = '"' :: (escQ f ++ '"' :: rest) := by simp
    rw [step1]
    have step2 : parseLineGo CsvSt.unq ('"' :: (escQ f ++ '"' :: rest)) =
        parseLineGo CsvSt.inq (escQ f ++ '"' :: rest) := by
      simp [parseLineGo]
    rw [step2, parseLineGo_inq_append]
    rcases hrest with h | ⟨t, h⟩ <;> subst h
    · rfl
    · have hq2 : parseLineGo CsvSt.qq (',' :: t) = parseLineGo CsvSt.unq (',' :: t) := by
        simp [parseLineGo]
      rw [hq2]
  · simp only [needsQuote] at hq
    have hf : ∀ c ∈ f, c ≠ ',' ∧ c ≠ '"' := by
      intro c hc
      constructor
      · intro heq
        exact hq (List.any_eq_true.mpr ⟨c, hc, by simp [heq]⟩)
      · intro heq
        exact hq (List.any_eq_true.mpr ⟨c, hc, by simp [heq]⟩)
    exact parseLineGo_unq_append f rest hf

theorem parseLineGo_renderLine (fs : List (List Char)) (h : fs ≠ []) :
    parseLineGo CsvSt.unq (renderLineFields fs) = fs := by
  induction fs with
  | nil => exact absurd rfl h
  | cons f fs ih =>
    cases fs with
    | nil =>
      have hfield := parseLineGo_renderField f [] (Or.inl rfl)
      simpa [renderLineFields, prependFirst, parseLineGo] using hfield
    | cons g gs =>
      have hr : renderLineFields (f :: g :: gs) =
          renderField f ++ ',' :: renderLineFields (g :: gs) := rfl
      rw [hr, parseLineGo_renderField f _ (Or.inr ⟨_, rfl⟩)]
      have hcomma : parseLineGo CsvSt.unq (',' :: renderLineFields (g :: gs)) =
          [] :: parseLineGo CsvSt.unq (renderLineFields (g :: gs)) := by
        simp [parseLineGo]
      rw [hcomma, ih (by simp)]
      simp [prependFirst]

theorem splitNl_ne_nil (s : List Char) : splitNl s ≠ [] := by
  induction s with
  | nil => simp [splitNl]
  | cons c rest ih =>
    simp only [splitNl]
    split_ifs
    · simp
    · exact consHead_ne_nil _ _

theorem splitNl_append (l rest : List Char) (hl : ∀ c ∈ l, c ≠ '\n') :
    splitNl (l ++ rest) = prependFirst l (splitNl rest) := by
  induction l with
  | nil =>
    simp only [List.nil_append]
    exact (prependFirst_nil_of_ne _ (splitNl_ne_nil _)).symm
  | cons c l ih =>
    have hc := hl c (List.mem_cons_self c l)
    simp only [List.cons_append, splitNl, if_neg hc, List.append_eq]
    rw [ih (fun d hd => hl d (List.mem_cons_of_mem c hd)), consHead_prependFirst]

theorem splitNl_joinNl (lines : List (List Char))
    (h : ∀ l ∈ lines, ∀ c ∈ l, c ≠ '\n') :
    splitNl (joinNl lines) = lines ++ [[]] := by
  induction lines with
  | nil => simp [joinNl, splitNl]
  | cons l ls ih =>
    simp only [joinNl]
    rw [splitNl_append l _ (h l (List.mem_cons_self l ls))]
    have hstep : splitNl ('\n' :: joinNl ls) = [] :: splitNl (joinNl ls) := by simp [splitNl]
    rw [hstep, ih (fun x hx => h x (List.mem_cons_of_mem l hx))]
    simp [prependFirst]

theorem mem_escQ {c : Char} {f : List Char} (h : c ∈ escQ f) : c ∈ f ∨ c = '"' := by
  induction f with
  | nil => simp [escQ] at h
  | cons d f ih =>
    simp only [escQ] at h
    split_ifs at h with hd
    · rcases List.mem_cons.mp h with h | h
      · exact Or.inr h
      · rcases List.mem_cons.mp h with h | h
        · exact Or.inr h
        · rcases ih h with h | h
          · exact Or.inl (List.mem_cons_of_mem d h)
          · exact Or.inr h
    · rcases List.mem_cons.mp h with h | h
      · exact Or.inl (h ▸ List.mem_cons_self d f)
      · rcases ih h with h | h
        · exact Or.inl (List.mem_cons_of_mem d h)
        · exact Or.inr h

theorem mem_renderField {c : Char} {f : List Char} (h : c ∈ renderField f) : c ∈ f ∨ c = '"' := by
  unfold renderField at h
  split_ifs at h with hq
  · rcases List.mem_cons.mp h with h | h
    · exact Or.inr h
    · rcases List.mem_append.mp h with h | h
      · exact mem_escQ h
      · simp at h
        exact Or.inr h
  · exact Or.inl h

theorem mem_renderLineFields {c : Char} {fs : List (List Char)}
    (h : c ∈ renderLineFields fs) : (∃ f ∈ fs, c ∈ f) ∨ c = '"' ∨ c = ',' := by
  induction fs with
  | nil => simp [renderLineFields] at h
  | cons f fs ih =>
    cases fs with
    | nil =>
      simp only [renderLineFields] at h
      rcases mem_renderField h with h | h
      · exact Or.inl ⟨f, by simp, h⟩
      · exact Or.inr (Or.inl h)
    | cons g gs =>
      have hr : renderLineFields (f :: g :: gs) =
          renderField f ++ ',' :: renderLineFields (g :: gs) := rfl
      rw [hr] at h
      rcases List.mem_append.mp h with h | h
      · rcases mem_renderField h with h | h
        · exact Or.inl ⟨f, by simp, h⟩
        · exact Or.inr (Or.inl h)
      · rcases List.mem_cons.mp h with h | h
        · exact Or.inr (Or.inr h)
        · rcases ih h with ⟨f2, hf2, hcf2⟩ | h
          · exact Or.inl ⟨f2, List.mem_cons_of_mem f hf2, hcf2⟩
          · exact Or.inr h

theorem digitChar10_isDigit (n : ℕ) : (digitChar10 n).isDigit = true := by
  unfold digitChar10
  have h : n % 10 < 10 := Nat.mod_lt _ (by norm_num)
  set k := n % 10 with hk
  interval_cases k <;> decide

theorem length_fmtPercent2 (q : ℚ) : 4 ≤ (fmtPercent2 q).length := by
  unfold fmtPercent2
  rw [String.length_append, String.length_append, String.length_append, String.length_append]
  have h2 : ("." : String).length = 1 := rfl
  have h3 : ("%" : String).length = 1 := rfl
  have h4 : (String.mk [digitChar10 ((rhe (q * 10000)).natAbs % 100 / 10),
      digitChar10 ((rhe (q * 10000)).natAbs % 10)]).length = 2 := rfl
  omega

theorem fmtPctCell_eq_dash_iff (x : Option ℚ) : fmtPctCell x = "--" ↔ x = none := by
  cases x with
  | none => simp [fmtPctCell]
  | some v =>
    simp only [fmtPctCell]
    constructor
    · intro hc
      have h := length_fmtPercent2 v
      rw [hc] at h
      have h2 : ("--" : String).length = 2 := rfl
      omega
    · intro hc
      exact absurd hc (by simp)

theorem fmtACOSCell_eq_fmtPctCell (x : Option ℚ) : fmtACOSCell x = fmtPctCell x := by
  cases x <;> rfl

theorem dayOf_eq_floor (t : ℚ) : dayOf t = ⌊t⌋ := by
  rw [Rat.floor_def]
  rfl

theorem rollingMean_undefined (w : ℕ) (xs : List ℚ) (i : ℕ) (h1 : i + 1 < w)
    (h2 : i < xs.length) : (rollingMean w xs)[i]? = some none := by
  unfold rollingMean
  rw [List.getElem?_map]
  simp [List.getElem?_range, h1, h2]

theorem rollingMean_at (w : ℕ) (xs : List ℚ) (i : ℕ) (h1 : ¬ i + 1 < w)
    (h2 : i < xs.length) :
    (rollingMean w xs)[i]? =
      some (some ((((xs.take (i + 1)).drop (i + 1 - w)).sum) / (w : ℚ))) := by
  unfold rollingMean
  rw [List.getElem?_map]
  simp [List.getElem?_range, h1, h2]

/-- C1: for every filtered row the visitor conversion rate is units sold
divided by total sessions exactly when total sessions > 0 and is undefined
(formatted as "--") when sessions ≤ 0; the ad click conversion rate is ad
order count divided by clicks exactly when clicks > 0 and undefined
otherwise; and the spec's scenario row (sessions 100, units 5, clicks 50,
ad orders 2) formats to "5.00%" and "4.00%". -/
theorem c1_conversion_rates (r : RawRecord) (s u c a : ℚ) :
    (r.sessionsTotal = some s → 0 < s → r.unitsSold = some u →
      visitorConvRateNum r = some (u / s))
    ∧ (r.sessionsTotal = some s → s ≤ 0 →
      visitorConvRateNum r = none ∧ fmtPctCell (visitorConvRateNum r) = "--")
    ∧ (r.clicks = some c → 0 < c → r.adOrders = some a → crNum r = some (a / c))
    ∧ (r.clicks = some c → c ≤ 0 →
      crNum r = none ∧ fmtPctCell (crNum r) = "--")
    ∧ fmtPctCell (visitorConvRateNum scenarioRecord) = "5.00%"
    ∧ fmtPctCell (crNum scenarioRecord) = "4.00%" := by
  refine ⟨?_, ?_, ?_, ?_, ?_, ?_⟩
  · intro hs hpos hu
    simp [visitorConvRateNum, hs, hu, if_pos hpos]
  · intro hs hle
    have h : visitorConvRateNum r = none := by
      simp [visitorConvRateNum, hs, not_lt.mpr hle]
    exact ⟨h, by rw [h]; rfl⟩
  · intro hc hpos ha
    simp [crNum, hc, ha, if_pos hpos]
  · intro hc hle
    have h : crNum r = none := by
      simp [crNum, hc, not_lt.mpr hle]
    exact ⟨h, by rw [h]; rfl⟩
  · with_unfolding_all decide
  · with_unfolding_all decide

/-- Witness for C1 at the scenario row: sessions 100 > 0, units 5, clicks
50 > 0, ad orders 2. -/
theorem c1_conversion_rates_witness :
    visitorConvRateNum scenarioRecord = some (5 / 100)
    ∧ crNum scenarioRecord = some (2 / 50) := by
  have h := c1_conversion_rates scenarioRecord 100 5 50 2
  refine ⟨h.1 ?_ ?_ ?_, h.2.2.1 ?_ ?_ ?_⟩ <;> with_unfolding_all decide

/-- C2: the aggregate ad spend of every filtered row is the row-wise sum of
exactly the recognized per-channel spend columns present in the sheet (a
missing cell contributing 0, as the pandas NaN-skipping sum does), and it is
the numeric zero — not undefined — whenever none of the four columns exists. -/
theorem c2_ad_spend_sum (c : ColumnsPresent) (r : RawRecord) :
    adSpend c r = ((existingCostColumns c).map (fun ch => (spendCell r ch).getD 0)).sum
    ∧ (existingCostColumns c = [] → adSpend c r = 0) := by
  constructor
  · unfold adSpend
    split_ifs with h
    · rw [h]
      rfl
    · rfl
  · intro h
    simp [adSpend, h]

/-- Witness for C2: a sheet with no spend column yields 0; a sheet with all
four columns sums the present cells. -/
theorem c2_ad_spend_sum_witness :
    adSpend noCols baseRecord = 0
    ∧ adSpend allCols { baseRecord with spendSP := some 3, spendSB := some 4 } =
      ((existingCostColumns allCols).map
        (fun ch => (spendCell { baseRecord with spendSP := some 3, spendSB := some 4 } ch).getD 0)).sum := by
  exact ⟨(c2_ad_spend_sum noCols baseRecord).2 (by decide),
    (c2_ad_spend_sum allCols _).1⟩

/-- C3: the derived ACOS maps the "--" placeholder (and the missing cell) to
undefined, otherwise strips the percent sign, parses the remainder and
divides by 100, parse failures becoming undefined; and a raw ACOS cell "--"
still renders "--" after the full derive-and-format pipeline. -/
theorem c3_acos_derivation (s : String) (q : ℚ) :
    deriveACOS (some "--") = none
    ∧ (s ≠ "--" → parseNum (stripPct s) = some q → deriveACOS (some s) = some (q / 100))
    ∧ (s ≠ "--" → parseNum (stripPct s) = none → deriveACOS (some s) = none)
    ∧ deriveACOS none = none
    ∧ fmtACOSCell (deriveACOS (some "--")) = "--"
    ∧ fmtACOSCell ((deriveRow allCols acosDashRecord).acos) = "--" := by
  refine ⟨by decide, ?_, ?_, rfl, by decide, by with_unfolding_all decide⟩
  · intro hne hp
    simp [deriveACOS, hne, hp]
  · intro hne hp
    simp [deriveACOS, hne, hp]

/-- Witness for C3 at the percentage string "12.5%". -/
theorem c3_acos_derivation_witness :
    deriveACOS (some "12.5%") = some (25 / 2 / 100)
    ∧ deriveACOS (some "n/a") = none := by
  have h := c3_acos_derivation "12.5%" (25 / 2)
  have h2 := c3_acos_derivation "n/a" 0
  exact ⟨h.2.1 (by decide) (by with_unfolding_all decide),
    h2.2.2.1 (by decide) (by with_unfolding_all decide)⟩

/-- C4: whenever the identifier-and-date filter result is empty, the
pipeline's output is the designed "no data" signal — an ordinary early exit
carrying no metric cards, no table, no export and no chart — and no further
stage runs. -/
theorem c4_empty_filter_no_data (ds : Dataset) (a : String) (s e : ℤ)
    (h : filterRecords ds.rows a s e = []) :
    runPipeline ds a s e = PipelineOutput.noData := by
  simp [runPipeline, runScript, filterStage, h]

/-- Witness for C4: a single-day range (day 3 to day 3) matching no row of a
concrete dataset yields the "no data" output. -/
theorem c4_empty_filter_no_data_witness :
    filterRecords noMatchDataset.rows "A" 3 3 = []
    ∧ runPipeline noMatchDataset "A" 3 3 = PipelineOutput.noData := by
  have h : filterRecords noMatchDataset.rows "A" 3 3 = [] := by
    with_unfolding_all decide
  exact ⟨h, c4_empty_filter_no_data noMatchDataset "A" 3 3 h⟩

/-- C5 counterexample: the claim asserts the filter compares calendar dates
only, with no time-of-day component.  The code compares full timestamps
against the midnight endpoints: a record timestamped noon of day 1 has
calendar day 1 inside the selected single-day range [1, 1] — so the claim
puts it in the filtered set — yet `filterRecords` excludes it. -/
theorem c5_date_filter_counterexample :
    claimedFilterPred halfDayRecord "A" 1 1
    ∧ halfDayRecord ∈ [halfDayRecord]
    ∧ halfDayRecord ∉ filterRecords [halfDayRecord] "A" 1 1 := by
  with_unfolding_all decide

/-- C5 amended: a record is in the filtered set iff it is in the dataset,
its identifier equals the selected value exactly, and its timestamp lies in
the closed interval from midnight of the start day to midnight of the end
day (both endpoints included); for records whose timestamp carries no
time-of-day component this coincides with the claimed calendar-date-only
comparison. -/
theorem c5_date_filter_amended (df : List RawRecord) (r : RawRecord) (a : String) (s e : ℤ) :
    (r ∈ filterRecords df a s e ↔
      r ∈ df ∧ r.asin = some a ∧ (s : ℚ) ≤ r.date ∧ r.date ≤ (e : ℚ))
    ∧ (r.date = (dayOf r.date : ℚ) →
      (r ∈ filterRecords df a s e ↔ r ∈ df ∧ claimedFilterPred r a s e)) := by
  have hmem : r ∈ filterRecords df a s e ↔
      r ∈ df ∧ r.asin = some a ∧ (s : ℚ) ≤ r.date ∧ r.date ≤ (e : ℚ) := by
    rw [filterRecords, List.mem_filter, decide_eq_true_iff]
  refine ⟨hmem, ?_⟩
  intro ht
  rw [hmem, claimedFilterPred]
  have h1 : (s : ℚ) ≤ r.date ↔ s ≤ dayOf r.date := by
    rw [dayOf_eq_floor]
    exact Iff.symm Int.le_floor
  have h2 : r.date ≤ (e : ℚ) ↔ dayOf r.date ≤ e := by
    constructor
    · intro hh
      rw [dayOf_eq_floor]
      have := Int.floor_le_floor hh
      rwa [Int.floor_intCast] at this
    · intro hh
      rw [ht]
      exact_mod_cast hh
  constructor
  · rintro ⟨hm, ha, hs, he⟩
    exact ⟨hm, ha, h1.mp hs, h2.mp he⟩
  · rintro ⟨hm, ha, hs, he⟩
    exact ⟨hm, ha, h1.mpr hs, h2.mpr he⟩

/-- Witness for C5 amended: a record at midnight of day 1, filtered over
[0, 2], where timestamp filtering and calendar-day filtering agree. -/
theorem c5_date_filter_amended_witness :
    (wholeDayRecord ∈ filterRecords [wholeDayRecord] "A" 0 2 ↔
      wholeDayRecord ∈ [wholeDayRecord] ∧ claimedFilterPred wholeDayRecord "A" 0 2) := by
  exact (c5_date_filter_amended [wholeDayRecord] wholeDayRecord "A" 0 2).2
    (by with_unfolding_all decide)

/-- C6: the chart rows are exactly the filtered rows on which sessions,
clicks and both conversion rates are all defined after numeric coercion
(incomplete rows are dropped, never zero-filled — a permutation of the
`filterMap`), the result is sorted ascending by date, and the trailing
30-observation rolling mean of either conversion series is undefined at
every 0-based index below 29 and at index 29 equals the arithmetic mean of
rows 0 through 29. -/
theorem c6_chart_stage (df : List RawRecord) (a : String) (s e : ℤ) :
    List.Perm (chartRows df a s e) ((filterRecords df a s e).filterMap mkChartRow)
    ∧ List.Pairwise dateLE (chartRows df a s e)
    ∧ (∀ i : ℕ, i < 29 → i < (chartRows df a s e).length →
      (rollingMean 30 ((chartRows df a s e).map ChartRow.v))[i]? = some none
      ∧ (rollingMean 30 ((chartRows df a s e).map ChartRow.cr))[i]? = some none)
    ∧ (29 < (chartRows df a s e).length →
      (rollingMean 30 ((chartRows df a s e).map ChartRow.v))[29]? =
        some (some ((((chartRows df a s e).map ChartRow.v).take 30).sum / (30 : ℚ)))
      ∧ (rollingMean 30 ((chartRows df a s e).map ChartRow.cr))[29]? =
        some (some ((((chartRows df a s e).map ChartRow.cr).take 30).sum / (30 : ℚ)))) := by
  refine ⟨List.perm_insertionSort dateLE _, List.sorted_insertionSort dateLE _, ?_, ?_⟩
  · intro i h1 h2
    constructor
    · exact rollingMean_undefined 30 _ i (by omega) (by rwa [List.length_map])
    · exact rollingMean_undefined 30 _ i (by omega) (by rwa [List.length_map])
  · intro h
    constructor
    · have := rollingMean_at 30 ((chartRows df a s e).map ChartRow.v) 29
        (by omega) (by rwa [List.length_map])
      simpa using this
    · have := rollingMean_at 30 ((chartRows df a s e).map ChartRow.cr) 29
        (by omega) (by rwa [List.length_map])
      simpa using this

/-- Witness for C6 on thirty consecutive complete days: index 5 is
undefined, index 29 is the mean of the first thirty rows. -/
theorem c6_chart_stage_witness :
    29 < (chartRows chartSampleDf "A" 0 100).length
    ∧ (rollingMean 30 ((chartRows chartSampleDf "A" 0 100).map ChartRow.v))[5]? = some none
    ∧ (rollingMean 30 ((chartRows chartSampleDf "A" 0 100).map ChartRow.v))[29]? =
      some (some ((((chartRows chartSampleDf "A" 0 100).map ChartRow.v).take 30).sum / (30 : ℚ))) := by
  have h := c6_chart_stage chartSampleDf "A" 0 100
  have hlen : 29 < (chartRows chartSampleDf "A" 0 100).length := by
    with_unfolding_all decide
  exact ⟨hlen, (h.2.2.1 5 (by norm_num) (by omega)).1, (h.2.2.2 hlen).1⟩

/-- C7: for each of the three percentage display columns (visitor conversion
rate, ad conversion rate, ACOS) the formatted cell is "--" exactly when the
derived value is undefined (the NaN/infinite float states being the
undefined state of the model), and otherwise it is the percentage rendered
with exactly two decimal digits. -/
theorem c7_percent_formatting (d : DerivedRow) (q : ℚ) :
    (fmtPctCell d.vcr = "--" ↔ d.vcr = none)
    ∧ (d.vcr = some q → fmtPctCell d.vcr = fmtPercent2 q)
    ∧ (fmtPctCell d.crv = "--" ↔ d.crv = none)
    ∧ (d.crv = some q → fmtPctCell d.crv = fmtPercent2 q)
    ∧ (fmtACOSCell d.acos = "--" ↔ d.acos = none)
    ∧ (d.acos = some q → fmtACOSCell d.acos = fmtPercent2 q)
    ∧ (∃ pre d1 d2 : _, fmtPercent2 q = pre ++ "." ++ String.mk [d1, d2] ++ "%"
      ∧ d1.isDigit = true ∧ d2.isDigit = true) := by
  refine ⟨fmtPctCell_eq_dash_iff d.vcr, ?_, fmtPctCell_eq_dash_iff d.crv, ?_,
    ?_, ?_, ?_⟩
  · intro h
    rw [h]
    rfl
  · intro h
    rw [h]
    rfl
  · rw [fmtACOSCell_eq_fmtPctCell]
    exact fmtPctCell_eq_dash_iff d.acos
  · intro h
    rw [h]
    rfl
  · exact ⟨(if rhe (q * 10000) < 0 then "-" else "") ++
      toString ((rhe (q * 10000)).natAbs / 100),
      digitChar10 ((rhe (q * 10000)).natAbs % 100 / 10),
      digitChar10 ((rhe (q * 10000)).natAbs % 10),
      rfl, digitChar10_isDigit _, digitChar10_isDigit _⟩

/-- Witness for C7 at the scenario row's derived metrics. -/
theorem c7_percent_formatting_witness :
    fmtPctCell (deriveRow allCols scenarioRecord).vcr = fmtPercent2 (1 / 20)
    ∧ (fmtACOSCell (deriveRow allCols scenarioRecord).acos = "--" ↔
      (deriveRow allCols scenarioRecord).acos = none) := by
  have h := c7_percent_formatting (deriveRow allCols scenarioRecord) (1 / 20)
  exact ⟨h.2.1 (by with_unfolding_all decide), h.2.2.2.2.1⟩

/-- C8: parsing the exported CSV artifact gives back exactly one header line
plus the same data rows with the same formatted cell values as the on-screen
table, differing only in that the top-level grouping header is removed; the
hypotheses say the table is structurally sane (a non-empty header, non-empty
rows) and that no cell embeds a line terminator, which holds of every value
the formatting stage produces. -/
theorem c8_csv_roundtrip (t : DisplayTable)
    (hsub : t.subHeader ≠ [])
    (hnl : ∀ s2 ∈ t.subHeader, ∀ c ∈ s2.data, c ≠ '\n')
    (hrows : ∀ r ∈ t.rows, r ≠ [])
    (hrnl : ∀ r ∈ t.rows, ∀ s2 ∈ r, ∀ c ∈ s2.data, c ≠ '\n') :
    parseCsvFile (toCsvFile t) =
      (t.subHeader.map String.data) :: t.rows.map (fun r => r.map String.data)
    ∧ (parseCsvFile (toCsvFile t)).length = t.rows.length + 1 := by
  have hlines : ∀ l ∈ (renderLineFields (t.subHeader.map String.data) ::
      t.rows.map (fun r => renderLineFields (r.map String.data))), ∀ c ∈ l, c ≠ '\n' := by
    intro l hl c hc
    rcases List.mem_cons.mp hl with h | h
    · subst h
      rcases mem_renderLineFields hc with ⟨f, hf, hcf⟩ | h | h
      · rcases List.mem_map.mp hf with ⟨s2, hs2, rfl⟩
        exact hnl s2 hs2 c hcf
      · subst h
        decide
      · subst h
        decide
    · rcases List.mem_map.mp h with ⟨r, hr, rfl⟩
      rcases mem_renderLineFields hc with ⟨f, hf, hcf⟩ | h | h
      · rcases List.mem_map.mp hf with ⟨s2, hs2, rfl⟩
        exact hrnl r hr s2 hs2 c hcf
      · subst h
        decide
      · subst h
        decide
  have hmain : parseCsvFile (toCsvFile t) =
      (t.subHeader.map String.data) :: t.rows.map (fun r => r.map String.data) := by
    unfold parseCsvFile toCsvFile
    rw [splitNl_joinNl _ hlines, List.dropLast_concat, List.map_cons]
    congr 1
    · exact parseLineGo_renderLine _ (by simpa using hsub)
    · rw [List.map_map]
      apply List.map_congr_left
      intro r hr
      exact parseLineGo_renderLine _ (by simpa using hrows r hr)
  exact ⟨hmain, by rw [hmain]; simp⟩

/-- Witness for C8 on a concrete two-column table whose data row contains a
thousands-separated value, exercising the CSV quoting. -/
theorem c8_csv_roundtrip_witness :
    parseCsvFile (toCsvFile tinyTable) =
      (tinyTable.subHeader.map String.data) ::
        tinyTable.rows.map (fun r => r.map String.data) := by
  exact (c8_csv_roundtrip tinyTable (by decide) (by decide) (by decide) (by decide)).1

/-- C9: the pipeline never mutates the loaded raw dataset — every stage
works on a private copy, so the dataset the script leaves behind equals the
loaded one and re-running the pipeline on it reproduces the same output. -/
theorem c9_raw_data_immutable (ds : Dataset) (a : String) (s e : ℤ) :
    (runScript ds a s e).2 = ds
    ∧ runPipeline ((runScript ds a s e).2) a s e = runPipeline ds a s e := by
  have h2 : (runScript ds a s e).2 = ds := by
    by_cases h : (filterRecords ds.rows a s e).isEmpty
    · simp [runScript, filterStage, h]
    · simp [runScript, filterStage, deriveStage, formatStage, exportStage, chartStage, h]
  exact ⟨h2, by rw [h2]⟩

/-- C10: the selectable identifiers are exactly the distinct non-null ASIN
values of the loaded data, and every row of the filtered set (hence every
derived, displayed and exported row, each produced one-for-one from it) has
a non-null identifier equal to the selected value; a record with a missing
identifier can never appear. -/
theorem c10_asin_selection (ds : Dataset) (a : String) (s e : ℤ) (r : RawRecord)
    (d : DerivedRow) :
    (a ∈ asinList ds.rows ↔ ∃ r2 ∈ ds.rows, r2.asin = some a)
    ∧ (r ∈ filterRecords ds.rows a s e → r.asin = some a)
    ∧ (r.asin = none → r ∉ filterRecords ds.rows a s e)
    ∧ (d ∈ (filterRecords ds.rows a s e).map (deriveRow ds.cols) → d.raw.asin = some a) := by
  have hfil : ∀ r2 : RawRecord, r2 ∈ filterRecords ds.rows a s e → r2.asin = some a := by
    intro r2 h
    rw [filterRecords, List.mem_filter, decide_eq_true_iff] at h
    exact h.2.1
  refine ⟨?_, hfil r, ?_, ?_⟩
  · simp [asinList, List.mem_dedup, List.mem_filterMap]
  · intro hn hmem
    have hsome := hfil r hmem
    rw [hn] at hsome
    exact Option.noConfusion hsome
  · intro hd
    rcases List.mem_map.mp hd with ⟨r2, hr2, rfl⟩
    exact hfil r2 hr2

/-- Witness for C10 on a concrete dataset holding one identified record and
one record with a missing identifier. -/
theorem c10_asin_selection_witness :
    wholeDayRecord.asin = some "A"
    ∧ ("A" ∈ asinList smallDataset.rows ↔ ∃ r2 ∈ smallDataset.rows, r2.asin = some "A") := by
  have h := c10_asin_selection smallDataset "A" 0 2 wholeDayRecord
    (deriveRow smallDataset.cols wholeDayRecord)
  exact ⟨h.2.1 (by with_unfolding_all decide), h.1⟩
